import Mathlib

/-!
Verification of the ripple-sepa-bridge core against its specification.

The development shallowly embeds the Python sources:
  * `ripple/sepa/utils.py`   — SEPA address parsing and BIC validation,
  * `ripple/sepa/model.py`   — the `Ticket` entity and the volume query,
  * `ripple/sepa/bridge.py`  — the `/quote` endpoint and the payment
    notification handler `on_payment_received`.

Python `decimal.Decimal` values are modelled as scaled integers (a
coefficient together with a power-of-ten exponent).  The default decimal
context of Python (28 significant digits, ROUND_HALF_EVEN) is modelled
explicitly: every arithmetic operation rounds its exact result to 28
significant digits, exactly as CPython does.
-/

set_option maxRecDepth 10000

namespace SepaBridge

/-! ## The decimal model -/

/-- A decimal number `m * 10 ^ e`, mirroring the coefficient/exponent pair
of Python `decimal.Decimal`.  Distinct representations of the same rational
value are distinguished, as in Python. -/
structure Dec where
  m : Int
  e : Int
deriving DecidableEq

/-- `10 ^ e` as a rational, for an integer exponent. -/
def qpow10 (e : Int) : ℚ := if 0 ≤ e then ((10 : ℚ) ^ e.toNat) else ((10 : ℚ) ^ (-e).toNat)⁻¹

/-- The rational value of a decimal. -/
def Dec.toRat (d : Dec) : ℚ := (d.m : ℚ) * qpow10 d.e

/-- Number of decimal digits, by fuelled recursion (the first argument is
fuel, always sufficient when instantiated to the number itself). -/
def numDigitsAux : Nat → Nat → Nat
  | 0, _ => 1
  | fuel + 1, n => if n < 10 then 1 else numDigitsAux fuel (n / 10) + 1

/-- Number of decimal digits of a natural number (1 for 0), i.e. the length
of a Python decimal coefficient. -/
def numDigits (n : Nat) : Nat := numDigitsAux n n

/-- Round `n / b` to the nearest natural, ties to even (`b > 0`). -/
def rheNat (n b : Nat) : Nat :=
  let q := n / b
  let r := n % b
  if 2 * r < b then q
  else if b < 2 * r then q + 1
  else if q % 2 = 0 then q else q + 1

/-- Round `m / b` half-even on the magnitude, keeping the sign: this is how
Python decimal rounds a coefficient (sign and magnitude are separate). -/
def rheInt (m : Int) (b : Nat) : Int :=
  if 0 ≤ m then (rheNat m.toNat b : Int) else -((rheNat (-m).toNat b : Int))

/-- Rounding step of the default Python decimal context: if the coefficient
has more than 28 significant digits, round it half-even down to 28 digits
(raising the exponent accordingly).  Exact results within precision are
returned unchanged. -/
def round28 (d : Dec) : Dec :=
  let dg := numDigits d.m.natAbs
  if dg ≤ 28 then d
  else
    let k := dg - 28
    ⟨rheInt d.m (10 ^ k), d.e + k⟩

/-- Exact decimal addition at the ideal exponent `min e1 e2`. -/
def decAddExact (x y : Dec) : Dec :=
  if x.e ≤ y.e then ⟨x.m + y.m * (10 : Int) ^ (y.e - x.e).toNat, x.e⟩
  else ⟨x.m * (10 : Int) ^ (x.e - y.e).toNat + y.m, y.e⟩

/-- Python decimal `+`: exact sum, then context rounding. -/
def decAdd (x y : Dec) : Dec := round28 (decAddExact x y)

/-- Exact decimal multiplication. -/
def decMulExact (x y : Dec) : Dec := ⟨x.m * y.m, x.e + y.e⟩

/-- Python decimal `*`: exact product, then context rounding. -/
def decMul (x y : Dec) : Dec := round28 (decMulExact x y)

/-- Exact division of a decimal by 100: a pure exponent shift. -/
def decDiv100Exact (x : Dec) : Dec := ⟨x.m, x.e - 2⟩

/-- Python decimal division by 100 (`Decimal(v) / 100` in `bridge.py`):
the quotient is exact (an exponent shift) and is then subject to context
rounding like every Python decimal operation. -/
def decDiv100 (x : Dec) : Dec := round28 (decDiv100Exact x)

/-- The coefficient of `x` rescaled to the exponent `emin` (callers only
use exponents `emin ≤ x.e`, where the rescaling is exact). -/
def Dec.scaled (x : Dec) (emin : Int) : Int := x.m * (10 : Int) ^ (x.e - emin).toNat

/-- Python decimal `==`: numeric equality of the two values, decided by
comparing coefficients at a common exponent. -/
def decEqv (x y : Dec) : Bool :=
  Dec.scaled x (min x.e y.e) == Dec.scaled y (min x.e y.e)

/-- Python decimal `<`: numeric order of the two values. -/
def decLt (x y : Dec) : Bool :=
  Dec.scaled x (min x.e y.e) < Dec.scaled y (min x.e y.e)

/-- Python truthiness of a decimal: nonzero value, i.e. nonzero
coefficient. -/
def decNZ (x : Dec) : Bool := x.m != 0

/-- `d.quantize(Decimal('0.00'))` with the default ROUND_HALF_EVEN:
rescale to exponent -2.  Python raises InvalidOperation when the resulting
coefficient would exceed the context precision of 28 digits; that failure
is `none`. -/
def quantize2 (d : Dec) : Option Dec :=
  let r : Dec :=
    if -2 ≤ d.e then ⟨d.m * (10 : Int) ^ (d.e + 2).toNat, -2⟩
    else ⟨rheInt d.m (10 ^ (-2 - d.e).toNat), -2⟩
  if numDigits r.m.natAbs ≤ 28 then some r else none

/-! ## Character-level string helpers (Python `str.split`, `str.lower`, …) -/

/-- Python `s.split(sep)` for a one-character separator, on char lists:
`splitCh c []` is `[[]]`, matching `''.split(sep) == ['']`. -/
def splitCh (sep : Char) : List Char → List (List Char)
  | [] => [[]]
  | c :: rest =>
    let r := splitCh sep rest
    if c = sep then [] :: r
    else
      match r with
      | g :: gs => (c :: g) :: gs
      | [] => [[c]]

/-- Python `s.split(sep)` for a one-character separator, on strings. -/
def splitOnChar (sep : Char) (s : String) : List String :=
  (splitCh sep s.data).map String.mk

/-- Python `s.lower()`. -/
def lowerStr (s : String) : String := String.mk (s.data.map Char.toLower)

/-- Python `s[:n]`. -/
def strTake (s : String) (n : Nat) : String := String.mk (s.data.take n)

/-- Is `c` an ASCII digit? -/
def isDigitCh (c : Char) : Bool := ('0' ≤ c) && (c ≤ '9')

/-- Value of an ASCII digit. -/
def digitVal (c : Char) : Nat := c.toNat - '0'.toNat

/-- Natural number denoted by a digit string. -/
def natOfDigits (l : List Char) : Nat := l.foldl (fun acc c => acc * 10 + digitVal c) 0

/-- `Decimal(s)` for plain decimal literals (optional sign, digits, optional
fraction): the construction is exact in Python, no context rounding.
Exponent notation, which none of the verified inputs use, is outside the
modelled domain and yields `none` like any malformed literal. -/
def parseDecimal (s : String) : Option Dec :=
  let signBody : Int × List Char :=
    match s.data with
    | '-' :: r => (-1, r)
    | '+' :: r => (1, r)
    | r => (1, r)
  match splitCh '.' signBody.2 with
  | [ip] =>
    if ip ≠ [] ∧ ip.all isDigitCh then some ⟨signBody.1 * natOfDigits ip, 0⟩ else none
  | [ip, fp] =>
    if (ip ++ fp) ≠ [] ∧ (ip ++ fp).all isDigitCh then
      some ⟨signBody.1 * natOfDigits (ip ++ fp), -(fp.length : Int)⟩
    else none
  | _ => none

/-- Python `str(Decimal)` (to-scientific-string, specials aside). -/
def decStr (d : Dec) : String :=
  let ds := (toString d.m.natAbs).data
  let sgn := if d.m < 0 then "-" else ""
  let len : Int := ds.length
  let adj := d.e + len - 1
  if d.e ≤ 0 ∧ -6 ≤ adj then
    if d.e = 0 then sgn ++ String.mk ds
    else if adj < 0 then
      sgn ++ "0." ++ String.mk (List.replicate (-(d.e + len)).toNat '0') ++ String.mk ds
    else
      sgn ++ String.mk (ds.take (adj + 1).toNat) ++ "." ++ String.mk (ds.drop (adj + 1).toNat)
  else
    let expPart := if adj < 0 then toString adj else "+" ++ toString adj
    if ds.length = 1 then sgn ++ String.mk ds ++ "E" ++ expPart
    else sgn ++ String.mk (ds.take 1) ++ "." ++ String.mk (ds.drop 1) ++ "E" ++ expPart

/-- Insert thousands separators into a reversed digit list. -/
def groupAux : List Char → List Char
  | a :: b :: c :: d :: rest => a :: b :: c :: ',' :: groupAux (d :: rest)
  | l => l

/-- Python `format(d, ',.2f')`: round half-even to two decimal places and
render with thousands separators, as used for the settlement amount. -/
def formatComma2 (d : Dec) : String :=
  let cents : Int :=
    if -2 ≤ d.e then d.m * (10 : Int) ^ (d.e + 2).toNat
    else rheInt d.m (10 ^ (-2 - d.e).toNat)
  let n := cents.natAbs
  let intStr := String.mk ((groupAux (toString (n / 100)).data.reverse).reverse)
  let f := n % 100
  let fracStr := (if f < 10 then "0" else "") ++ toString f
  (if cents < 0 then "-" else "") ++ intStr ++ "." ++ fracStr

/-! ## `ripple/sepa/utils.py`: SEPA address parsing and validation -/

/-- A Python exception, at the granularity `parse_sepa_data` distinguishes:
`ValueError` (caught by its `except ValueError` handler), and the uncaught
`AttributeError` and `AssertionError`. -/
inductive PyErr where
  | valueError (msg : String)
  | attributeError
  | assertionError
  | runtimeError (msg : String)
  | invalidOperation
deriving DecidableEq

/-- The keys of the `COUNTRIES` dict in `utils.py` (note the final entry
`"ZW "`, which carries a trailing space in the source). -/
def COUNTRY_CODES : List String :=
  ["AF", "AX", "AL", "DZ", "AS", "AD", "AO", "AI", "AQ", "AG", "AR", "AM",
  "AW", "AU", "AT", "AZ", "BS", "BH", "BD", "BB", "BY", "BE", "BZ", "BJ",
  "BM", "BT", "BO", "BA", "BW", "BV", "BR", "IO", "BN", "BG", "BF", "BI",
  "KH", "CM", "CA", "CV", "KY", "CF", "TD", "CL", "CN", "CX", "CC", "CO",
  "KM", "CG", "CD", "CK", "CR", "CI", "HR", "CU", "CY", "CZ", "DK", "DJ",
  "DM", "DO", "EC", "EG", "SV", "GQ", "ER", "EE", "ET", "FK", "FO", "FJ",
  "FI", "FR", "GF", "PF", "TF", "GA", "GM", "GE", "DE", "GH", "GI", "GR",
  "GL", "GD", "GP", "GU", "GT", "GG", "GN", "GW", "GY", "HT", "HM", "VA",
  "HN", "HK", "HU", "IS", "IN", "ID", "IR", "IQ", "IE", "IM", "IL", "IT",
  "JM", "JP", "JE", "JO", "KZ", "KE", "KI", "KP", "KR", "KW", "KG", "LA",
  "LV", "LB", "LS", "LR", "LY", "LI", "LT", "LU", "MO", "MK", "MG", "MW",
  "MY", "MV", "ML", "MT", "MH", "MQ", "MR", "MU", "YT", "MX", "FM", "MD",
  "MC", "MN", "ME", "MS", "MA", "MZ", "MM", "NA", "NR", "NP", "NL", "AN",
  "NC", "NZ", "NI", "NE", "NG", "NU", "NF", "MP", "NO", "OM", "PK", "PW",
  "PS", "PA", "PG", "PY", "PE", "PH", "PN", "PL", "PT", "PR", "QA", "RE",
  "RO", "RU", "RW", "BL", "SH", "KN", "LC", "MF", "PM", "VC", "WS", "SM",
  "ST", "SA", "SN", "RS", "SC", "SL", "SG", "SK", "SI", "SB", "SO", "ZA",
  "GS", "ES", "LK", "SD", "SR", "SJ", "SZ", "SE", "CH", "SY", "TW", "TJ",
  "TZ", "TH", "TL", "TG", "TK", "TO", "TT", "TN", "TR", "TM", "TC", "TV",
  "UG", "UA", "AE", "GB", "US", "UM", "UY", "UZ", "VU", "VE", "VN", "VG",
  "VI", "WF", "EH", "YE", "ZM", "ZW "]

/-- `string.ascii_uppercase`. -/
def asciiUppercase : List Char := "ABCDEFGHIJKLMNOPQRSTUVWXYZ".data

/-- `validate_swift_bic` from `utils.py`.  The country-code failure is an
`AttributeError`, not a `ValueError`: the source writes
`raise ValueError('...').format(country_code)`, which calls `.format` on the
exception object and so raises `AttributeError` before the `raise` executes. -/
def validate_swift_bic (value : String) : Except PyErr String :=
  if value.length ≠ 8 ∧ value.length ≠ 11 then
    .error (.valueError "A SWIFT-BIC is either 8 or 11 characters long.")
  else if ¬ ((value.data.take 4).all fun x => asciiUppercase.contains x) then
    .error (.valueError (String.mk (value.data.take 4) ++ " is not a valid SWIFT-BIC Institution Code."))
  else if ¬ (COUNTRY_CODES.contains (String.mk ((value.data.drop 4).take 2))) then
    .error .attributeError
  else .ok value

/-- Model of the external `stdnum.iban.compact`: strip spaces, dashes and
dots, and uppercase. -/
def ibanCompact (s : String) : String :=
  String.mk ((s.data.filter fun c => ¬ (c = ' ' ∨ c = '-' ∨ c = '.')).map Char.toUpper)

/-- Base-36 digit value of a character (`int(x, 36)` on single uppercase
characters), `none` when the character is not alphanumeric. -/
def base36 (c : Char) : Option Nat :=
  if isDigitCh c then some (digitVal c)
  else if 'A' ≤ c ∧ c ≤ 'Z' then some (c.toNat - 'A'.toNat + 10)
  else none

/-- Numeric value of the base-10 expansion in which every character is
replaced by its base-36 value written in decimal, as `stdnum.iban` builds
it; `none` if any character is not alphanumeric. -/
def ibanNumAux : Nat → List Char → Option Nat
  | acc, [] => some acc
  | acc, c :: rest =>
    match base36 c with
    | some v => ibanNumAux (acc * (if v < 10 then 10 else 100) + v) rest
    | none => none

/-- Model of the external library function `stdnum.iban.validate` at the
granularity the spec relies on ("checksum validation (mod-97 style)"):
compact the number, require every character alphanumeric and the rearranged
mod-97 checksum to equal 1, and return the compacted number.  The
per-country structure table of the real library is not modelled. -/
def iban_validate (s : String) : Option String :=
  let c := ibanCompact s
  if c.data = [] then none
  else
    match ibanNumAux 0 (c.data.drop 4 ++ c.data.take 4) with
    | none => none
    | some n => if n % 97 = 1 then some c else none

/-- The `enable_spaces` helper of `parse_sepa_data`: `s.replace('+', ' ')`. -/
def enable_spaces (s : String) : String :=
  String.mk (s.data.map fun c => if c = '+' then ' ' else c)

/-- A structured SEPA recipient, the dict
`{'name': ..., 'iban': ..., 'bic': ..., 'text': ...}`. -/
structure SepaData where
  name : String
  iban : String
  bic : String
  text : String
deriving DecidableEq

deriving instance DecidableEq for Except

/-- The `for idx, part in enumerate(parts)` loop of `parse_sepa_data`,
threading the accumulator `(recipient_name, text, iban, bic)`.  A BIC
validation failure other than `ValueError` propagates (the `except` clause
only catches `ValueError`); a second unrecognized text part fails the
`assert not text`. -/
def psdLoop (plen : Nat) : Nat → List String → String × String × String × String →
    Except PyErr (String × String × String × String)
  | _, [], acc => .ok acc
  | idx, p :: rest, (rn, tx, ib, bc) =>
    match validate_swift_bic p with
    | .ok v => psdLoop plen (idx + 1) rest (rn, tx, ib, v)
    | .error (.valueError _) =>
      match iban_validate p with
      | some v => psdLoop plen (idx + 1) rest (rn, tx, v, bc)
      | none =>
        if rn = "" ∧ (idx = 0 ∨ plen = 4) then
          psdLoop plen (idx + 1) rest (enable_spaces p, tx, ib, bc)
        else if tx ≠ "" then .error .assertionError
        else psdLoop plen (idx + 1) rest (rn, enable_spaces p, ib, bc)
    | .error e => .error e

/-- `parse_sepa_data` from `utils.py`. -/
def parse_sepa_data (s : String) (require_name : Bool := true) : Except PyErr SepaData :=
  if ' ' ∈ s.data then .error (.valueError "Not yet supported")
  else
    let parts := (splitCh '/' s.data).map String.mk
    if ¬ (parts.length = 2 ∨ parts.length = 3 ∨ parts.length = 4) then
      .error (.valueError "old-style recipient has wrong number of parts")
    else
      match psdLoop parts.length 0 parts ("", "", "", "") with
      | .error e => .error e
      | .ok (rn, tx, ib, bc) =>
        if ib = "" then .error (.valueError "Did not find a valid IBAN")
        else if bc = "" then .error (.valueError "Did not find a valid BIC")
        else if rn = "" ∧ require_name then .error (.valueError "Did not find a recipient name")
        else .ok ⟨rn, ib, bc, tx⟩

/-- Value of a standard base64 alphabet character. -/
def b64val (c : Char) : Option Nat :=
  if 'A' ≤ c ∧ c ≤ 'Z' then some (c.toNat - 'A'.toNat)
  else if 'a' ≤ c ∧ c ≤ 'z' then some (c.toNat - 'a'.toNat + 26)
  else if isDigitCh c then some (digitVal c + 52)
  else if c = '+' then some 62
  else if c = '/' then some 63
  else none

/-- Decode base64 four characters at a time; the final quartet may carry one
or two padding characters. -/
def b64groups : List Char → Option (List Nat)
  | [] => some []
  | [c1, c2, '=', '='] =>
    match b64val c1, b64val c2 with
    | some a, some b => some [a * 4 + b / 16]
    | _, _ => none
  | [c1, c2, c3, '='] =>
    match b64val c1, b64val c2, b64val c3 with
    | some a, some b, some c => some [a * 4 + b / 16, b % 16 * 16 + c / 4]
    | _, _, _ => none
  | c1 :: c2 :: c3 :: c4 :: rest =>
    match b64val c1, b64val c2, b64val c3, b64val c4, b64groups rest with
    | some a, some b, some c, some d, some tl =>
      some ((a * 4 + b / 16) :: (b % 16 * 16 + c / 4) :: (c % 4 * 64 + d) :: tl)
    | _, _, _, _, _ => none
  | _ => none

/-- Modelled from the spec: the base64 decoding step of
`parse_sepa_destination` ("decoding the whole string as a well-known
binary-to-text encoding"); `none` when the string is not valid base64. -/
def b64decode (s : String) : Option (List Nat) := b64groups s.data

/-- Decoded base64 bytes read back as a string of one character per byte. -/
def bytesToStr (bs : List Nat) : String := String.mk (bs.map Char.ofNat)

/-- Modelled from the spec: `parse_sepa_destination` is imported by
`bridge.py` and by the tests from `ripple.sepa.utils` but is absent from
the source files.  Per the spec (section 4.1 and the design notes) it first
attempts to base64-decode the whole address string and falls back to
parsing the raw string only when decoding fails. -/
def parse_sepa_destination (s : String) : Except PyErr SepaData :=
  match b64decode s with
  | some bs => parse_sepa_data (bytesToStr bs)
  | none => parse_sepa_data s

/-- Modelled from the spec: `validate_sepa` is imported by `bridge.py` from
`ripple.sepa.utils` but is absent from the source files.  Per the spec
(section 4.1), checked in order with the first failure winning: the IBAN
must pass checksum validation, the BIC must pass `validate_swift_bic`, the
recipient name must be non-empty, and the text must be at most 130
characters.  Returns the failure message, `none` on success. -/
def validate_sepa (sepa : SepaData) : Option String :=
  match iban_validate sepa.iban with
  | none => some "Not a valid IBAN."
  | some _ =>
    match validate_swift_bic sepa.bic with
    | .error _ => some "Not a valid BIC."
    | .ok _ =>
      if sepa.name = "" then some "A recipient name is required."
      else if 130 < sepa.text.length then some "The text is too long."
      else none

/-- The delimiter-joined encoding of a structured recipient, as the claims
and the `parse_sepa_data` docstring describe it
(`recipient+name/IBAN/BIC/foo+bar`), with the text segment omitted when the
text is empty. -/
def unparseSepa (x : SepaData) : String :=
  x.name ++ "/" ++ x.iban ++ "/" ++ x.bic ++ (if x.text = "" then "" else "/" ++ x.text)

/-- Projection of BIC validation onto its non-exceptional result. -/
def exceptOk : Except PyErr String → Option String
  | .ok v => some v
  | .error _ => none

/-- Does BIC validation fail with a `ValueError`, the only failure
`parse_sepa_data` catches before trying the next interpretation? -/
def bicVE : Except PyErr String → Bool
  | .error (.valueError _) => true
  | _ => false

/-! ## `ripple/sepa/model.py`: the `Ticket` entity and the volume query -/

/-- The `Ticket` row.  `created_day` models `date(created_at)`, the only
use the verified code makes of the creation timestamp. -/
structure Ticket where
  id : String
  amount : Dec
  fee : Dec
  created_day : Int
  ripple_address : Option String
  status : String
  failed : Option String
  recipient_name : String
  bic : String
  iban : String
  text : String
deriving DecidableEq

/-- `Ticket.__init__`: a fresh ticket in status `quoted`.  The random hex
id and the creation day stand in for `os.urandom` and `datetime.utcnow()`,
which are environment inputs. -/
def Ticket.new (id : String) (created_day : Int) (amount fee : Dec) (sepa : SepaData) : Ticket :=
  { id := id, amount := amount, fee := fee, created_day := created_day,
    ripple_address := none, status := "quoted", failed := none,
    recipient_name := sepa.name, bic := sepa.bic, iban := sepa.iban, text := sepa.text }

/-- `Ticket.clear`: forget the sensitive settlement instruction fields. -/
def clearTicket (t : Ticket) : Ticket :=
  { t with bic := "", iban := "", recipient_name := "", text := "" }

/-- `Ticket.tx_volume_today`: the summed `amount` of the tickets that are
not `quoted` and were created today, optionally filtered by IBAN (the
filter is skipped when the argument is `None` or empty, mirroring
`if iban:`).  SQL `SUM` over no rows is NULL, which the source coalesces
with `or Decimal('0')`; the empty fold gives that same value.  The sum is
taken database-side, hence exactly (no context rounding). -/
def tx_volume_today (db : List Ticket) (today : Int) (iban : Option String) : Dec :=
  ((db.filter fun t =>
      (t.status != "quoted") && (t.created_day == today) &&
      (match iban with
       | some i => if i = "" then true else t.iban == i
       | none => true)).map Ticket.amount).foldl decAddExact ⟨0, 0⟩

/-! ## `ripple/sepa/bridge.py`: the `/quote` view -/

/-- The configuration values `bridge.py` reads from `current_app.config`,
passed in as an explicit value as the spec (section 9) directs. -/
structure Config where
  FIXED_FEE : Dec
  VOLUME_FEE : Dec
  USER_TX_LIMIT : Dec
  BRIDGE_TX_LIMIT : Dec
  SEPA_API : Option String
  SEPA_API_AUTH : String
deriving DecidableEq

/-- Result of the `/quote` view: a `BadRequest`, an uncaught exception
(`Decimal` construction or `quantize` failure, HTTP 500), a Federation
error payload, or a success response together with the ticket added to the
session. -/
inductive QuoteOutcome where
  | badRequest
  | exn
  | err (type msg : String)
  | success (ticket : Ticket) (sendValue : Dec)
deriving DecidableEq

/-- The `/quote` view.  Environment inputs are explicit: the ticket store
`db` and the current day for the volume queries, and the random id for the
new ticket.  Of the success response only the quoted value
`ticket.amount + ticket.fee` is modelled. -/
def quote (cfg : Config) (db : List Ticket) (today : Int) (newId : String)
    (sepa : SepaData) (amountParam : String) : QuoteOutcome :=
  match validate_sepa sepa with
  | some e => .err "invalidSEPA" e
  | none =>
    match splitOnChar '/' amountParam with
    | [amtStr, cur] =>
      if cur ≠ "EUR" then .err "invalidAmount" "You can only send EUR."
      else
        match parseDecimal amtStr with
        | none => .exn
        | some amount =>
          match quantize2 amount with
          | none => .exn
          | some q =>
            if decEqv q amount = false then
              .err "invalidAmount" "The amount must be divisible by 1 cent"
            else if (decNZ cfg.USER_TX_LIMIT &&
                decLt cfg.USER_TX_LIMIT
                  (decAdd amount (tx_volume_today db today (some sepa.iban)))) = true then
              .err "limitExceeded"
                ("The amount you are trying to send is too large (limit: " ++
                  decStr cfg.USER_TX_LIMIT ++ ")")
            else if (decNZ cfg.BRIDGE_TX_LIMIT &&
                decLt cfg.BRIDGE_TX_LIMIT
                  (decAdd amount (tx_volume_today db today none))) = true then
              .err "limitExceeded"
                "We are currently unable to process such an amount, try again later."
            else
              let fee := decAdd cfg.FIXED_FEE (decMul amount (decDiv100 cfg.VOLUME_FEE))
              let ticket := Ticket.new newId today amount fee sepa
              .success ticket (decAdd ticket.amount ticket.fee)
    | _ => .badRequest

/-- Is a quote outcome a success (a ticket was created)? -/
def QuoteOutcome.isSuccess : QuoteOutcome → Bool
  | .success _ _ => true
  | _ => false

/-- The ticket created by a successful quote. -/
def quoteTicket : QuoteOutcome → Option Ticket
  | .success t _ => some t
  | _ => none

/-! ## `ripple/sepa/bridge.py`: the payment notification handler -/

/-- A payment notification from wasipaid: the transaction hash and the
`data` object fields the handler reads, plus `currency`, which it does
not read. -/
structure Notification where
  tx_hash : String
  sender : String
  amount : String
  currency : String
  invoice_id : Option String
deriving DecidableEq

/-- The JSON body of the settlement `requests.post`, field for field. -/
structure SepaPayload where
  id : String
  name : String
  bic : String
  iban : String
  amount : String
  text : String
  verify : String
deriving DecidableEq

/-- The environment's answer to the settlement call: a transport-level
`RequestException`, or an HTTP response with its status code and the value
of the `error` field of its JSON body when present. -/
inductive SepaResponse where
  | requestException (msg : String)
  | response (status_code : Nat) (bodyError : Option String)
deriving DecidableEq

/-- The `error` value computed around the settlement call: the stringified
`RequestException`, or the unexpected-status message, or the
backend-reported error; `none` when the call succeeded. -/
def sepaError : SepaResponse → Option String
  | .requestException e => some e
  | .response code bodyError =>
    if code ≠ 200 then some ("Unexpected status code: " ++ toString code)
    else
      match bodyError with
      | some msg => some ("Backend did not accept transfer: " ++ msg)
      | none => none

/-- An observable side effect of the handler, in order: a database commit
(carrying the state of the matched ticket), the outbound settlement POST,
or a notification email (bodies are rendered from templates outside the
sources; the subject identifies the email). -/
inductive Event where
  | commit (t : Ticket)
  | sepaCall (url : String) (auth : String) (payload : SepaPayload)
  | email (subject : String)
deriving DecidableEq

/-- How the handler's Flask view terminates: an HTTP response, or an
uncaught exception. -/
inductive HResult where
  | resp (body : String) (code : Nat)
  | exn (e : PyErr)
deriving DecidableEq

/-- What a run of `on_payment_received` produces: the ordered side effects,
the session state of the matched ticket when the view exits (after the
in-view mutations, before the teardown handler runs), and the view's
result. -/
structure Outcome where
  events : List Event
  ticket : Option Ticket
  result : HResult
deriving DecidableEq

/-- `Ticket.query.get(payment['invoice_id'].lower())`, guarded by
`'invoice_id' in payment`. -/
def findTicket (db : List Ticket) (invoice : Option String) : Option Ticket :=
  match invoice with
  | some inv => db.find? fun t => t.id == lowerStr inv
  | none => none

/-- `on_payment_received` from `bridge.py`.  `verified` is the outcome of
the upstream wasipaid receipt verification (`True` as well when
`RECEIPT_DEBUGGING` skips it); `resp` is the settlement backend's answer,
consumed only if the call is made.  A notification amount that is not a
decimal literal raises `InvalidOperation` like `Decimal(...)` does. -/
def on_payment_received (cfg : Config) (db : List Ticket) (verified : Bool)
    (n : Notification) (resp : SepaResponse) : Outcome :=
  if verified = false then ⟨[], none, .resp "not at all ok" 400⟩
  else
    match findTicket db n.invoice_id with
    | none => ⟨[.email "Received unexpected payment"], none, .resp "OK" 200⟩
    | some t =>
      match parseDecimal n.amount with
      | none => ⟨[], some t, .exn .invalidOperation⟩
      | some pa =>
        if decEqv pa (decAdd t.amount t.fee) then
          if ¬ (t.status = "received" ∨ t.status = "quoted") then
            ⟨[], some t, .exn (.runtimeError ("Ticket was already processed: " ++ t.id))⟩
          else
            let t1 : Ticket := { t with ripple_address := some n.sender, status := "received" }
            match cfg.SEPA_API with
            | some api =>
              let t2 : Ticket := { t1 with status := "sending" }
              let payload : SepaPayload :=
                { id := strTake t2.id 35, name := t2.recipient_name, bic := t2.bic,
                  iban := t2.iban, amount := formatComma2 t2.amount,
                  text := "sepa.link: " ++ t2.text, verify := n.tx_hash }
              match sepaError resp with
              | some err =>
                let t3 : Ticket := { t2 with status := "received" }
                ⟨[.commit t1, .commit t2, .sepaCall api cfg.SEPA_API_AUTH payload, .commit t3],
                 some t3, .exn (.valueError err)⟩
              | none =>
                let t3 : Ticket := { t2 with status := "sent" }
                ⟨[.commit t1, .commit t2, .sepaCall api cfg.SEPA_API_AUTH payload, .commit t3,
                  .email "SEPA bridge: Transaction processed"],
                 some (clearTicket t3), .resp "OK" 200⟩
            | none =>
              ⟨[.commit t1, .email "SEPA bridge: Payment received: Execute a transfer"],
               some (clearTicket t1), .resp "OK" 200⟩
        else
          ⟨[.email "Received payment with unexpected amount"],
           some { t with failed := some "unexpected" }, .resp "OK" 200⟩

/-- The ticket state most recently committed during the request, starting
from its pre-request state. -/
def lastCommitted (orig : Option Ticket) (evs : List Event) : Option Ticket :=
  evs.foldl (fun acc ev => match ev with | .commit t => some t | _ => acc) orig

/-- The durable ticket state after the request, per the
`teardown_app_request` handler `shutdown_session`: a request that raises
is rolled back to the last commit, a request that returns is committed. -/
def persistedTicket (orig : Option Ticket) (o : Outcome) : Option Ticket :=
  match o.result with
  | .exn _ => lastCommitted orig o.events
  | .resp _ _ => o.ticket

/-! ## Value semantics of the decimal model -/

theorem qpow10_eq_zpow (e : Int) : qpow10 e = (10 : ℚ) ^ e := by
  unfold qpow10
  split_ifs with h
  · rw [← zpow_natCast (10 : ℚ), Int.toNat_of_nonneg h]
  · rw [← zpow_natCast (10 : ℚ), Int.toNat_of_nonneg (by omega : (0 : ℤ) ≤ -e), ← zpow_neg,
      neg_neg]

theorem qpow10_pos (e : Int) : 0 < qpow10 e := by
  rw [qpow10_eq_zpow]
  positivity

theorem qpow10_ne_zero (e : Int) : qpow10 e ≠ 0 := ne_of_gt (qpow10_pos e)

theorem qpow10_add (a b : Int) : qpow10 (a + b) = qpow10 a * qpow10 b := by
  rw [qpow10_eq_zpow, qpow10_eq_zpow, qpow10_eq_zpow,
    zpow_add₀ (by norm_num : (10 : ℚ) ≠ 0)]

theorem pow_toNat_sub_qpow10 (a b : Int) (h : b ≤ a) :
    ((10 : ℚ)) ^ (a - b).toNat * qpow10 b = qpow10 a := by
  rw [← zpow_natCast (10 : ℚ), Int.toNat_of_nonneg (by omega : (0 : ℤ) ≤ a - b),
    qpow10_eq_zpow, qpow10_eq_zpow, ← zpow_add₀ (by norm_num : (10 : ℚ) ≠ 0)]
  congr 1
  omega

theorem scaled_toRat (x : Dec) (emin : Int) (h : emin ≤ x.e) :
    ((x.scaled emin : Int) : ℚ) = x.toRat / qpow10 emin := by
  unfold Dec.scaled Dec.toRat
  push_cast
  rw [eq_div_iff (qpow10_ne_zero emin), mul_assoc, pow_toNat_sub_qpow10 x.e emin h]

theorem decEqv_iff (x y : Dec) : decEqv x y = true ↔ x.toRat = y.toRat := by
  unfold decEqv
  rw [beq_iff_eq, ← Int.cast_inj (α := ℚ),
    scaled_toRat x _ (min_le_left _ _), scaled_toRat y _ (min_le_right _ _),
    div_eq_div_iff (qpow10_ne_zero _) (qpow10_ne_zero _)]
  constructor
  · intro h
    exact mul_right_cancel₀ (qpow10_ne_zero _) h
  · intro h
    rw [h]

theorem decLt_iff (x y : Dec) : decLt x y = true ↔ x.toRat < y.toRat := by
  unfold decLt
  rw [decide_eq_true_eq, ← Int.cast_lt (R := ℚ),
    scaled_toRat x _ (min_le_left _ _), scaled_toRat y _ (min_le_right _ _),
    div_lt_div_iff_of_pos_right (qpow10_pos _)]

theorem decNZ_iff (x : Dec) : decNZ x = true ↔ x.toRat ≠ 0 := by
  unfold decNZ Dec.toRat
  rw [bne_iff_ne]
  constructor
  · intro h hc
    rcases mul_eq_zero.mp hc with hm | hq
    · exact h (by exact_mod_cast hm)
    · exact qpow10_ne_zero _ hq
  · intro h hc
    apply h
    rw [hc]
    push_cast
    ring

theorem toRat_decAddExact (x y : Dec) : (decAddExact x y).toRat = x.toRat + y.toRat := by
  unfold decAddExact Dec.toRat
  split_ifs with h
  · push_cast
    rw [add_mul, mul_assoc, pow_toNat_sub_qpow10 y.e x.e h]
  · push_cast
    rw [add_mul, mul_assoc, pow_toNat_sub_qpow10 x.e y.e (le_of_not_le h)]

theorem toRat_decMulExact (x y : Dec) : (decMulExact x y).toRat = x.toRat * y.toRat := by
  unfold decMulExact Dec.toRat
  push_cast
  rw [qpow10_add]
  ring

theorem toRat_decDiv100Exact (x : Dec) : (decDiv100Exact x).toRat = x.toRat / 100 := by
  unfold decDiv100Exact Dec.toRat
  have h : x.e - 2 = x.e + (-2) := by omega
  have h2 : qpow10 (-2) = (100 : ℚ)⁻¹ := by
    rw [qpow10_eq_zpow]
    norm_num
  rw [h, qpow10_add, h2]
  ring

theorem round28_eq_self (d : Dec) (h : numDigits d.m.natAbs ≤ 28) : round28 d = d := by
  unfold round28
  exact if_pos h

theorem toRat_decAdd (x y : Dec) (h : numDigits (decAddExact x y).m.natAbs ≤ 28) :
    (decAdd x y).toRat = x.toRat + y.toRat := by
  unfold decAdd
  rw [round28_eq_self _ h, toRat_decAddExact]

theorem toRat_decMul (x y : Dec) (h : numDigits (decMulExact x y).m.natAbs ≤ 28) :
    (decMul x y).toRat = x.toRat * y.toRat := by
  unfold decMul
  rw [round28_eq_self _ h, toRat_decMulExact]

theorem toRat_decDiv100 (x : Dec) (h : numDigits x.m.natAbs ≤ 28) :
    (decDiv100 x).toRat = x.toRat / 100 := by
  unfold decDiv100
  rw [round28_eq_self (decDiv100Exact x) h, toRat_decDiv100Exact]

theorem toRat_foldl_decAddExact (init : Dec) (l : List Dec) :
    (l.foldl decAddExact init).toRat = init.toRat + (l.map Dec.toRat).sum := by
  induction l generalizing init with
  | nil => simp
  | cons a tl ih =>
    rw [List.foldl_cons, ih, toRat_decAddExact, List.map_cons, List.sum_cons]
    ring

theorem tx_volume_today_toRat (db : List Ticket) (today : Int) (iban : Option String) :
    (tx_volume_today db today iban).toRat =
      (((db.filter fun t =>
          (t.status != "quoted") && (t.created_day == today) &&
          (match iban with
           | some i => if i = "" then true else t.iban == i
           | none => true)).map fun t => t.amount.toRat).sum) := by
  unfold tx_volume_today
  rw [toRat_foldl_decAddExact, List.map_map]
  have h0 : (Dec.mk 0 0).toRat = 0 := by
    unfold Dec.toRat
    push_cast
    ring
  rw [h0, zero_add]
  rfl

/-- The embedded parser and validators reproduce the repository test
suite (`tests.py`): the two positive `parse_sepa_destination` layouts, the
rejected IBAN/BIC, and the base64 test vector. -/
theorem parse_matches_test_suite :
    parse_sepa_data "User+Name/GB82WEST12345698765432/DABADKKK/Foo+Bar" =
      .ok ⟨"User Name", "GB82WEST12345698765432", "DABADKKK", "Foo Bar"⟩ ∧
    parse_sepa_data "User+Name/GB82WEST12345698765432/DABADKKK" =
      .ok ⟨"User Name", "GB82WEST12345698765432", "DABADKKK", ""⟩ ∧
    iban_validate "GB82WEST12345691765432" = none ∧
    exceptOk (validate_swift_bic "DABADKKKa") = none ∧
    (b64decode "VXNlciBOYW1lL0dCODJXRVNUMTIzNDU2OTg3NjU0MzIvREFCQURLS0s=").map bytesToStr =
      some "User Name/GB82WEST12345698765432/DABADKKK" := by
  refine ⟨by decide, by decide, by decide, by decide, by decide⟩

/-! ## Shared concrete fixtures for witnesses and counterexamples -/

/-- A ticket as the repository test suite creates it (amount 100, fee 10). -/
def exTicket : Ticket :=
  { id := "abc", amount := ⟨100, 0⟩, fee := ⟨10, 0⟩, created_day := 0,
    ripple_address := none, status := "quoted", failed := none,
    recipient_name := "A User", bic := "DABADKKK",
    iban := "GB82WEST12345698765432", text := "Yadda" }

/-- The test-suite configuration (default fees and limits, a settlement
backend configured). -/
def exConfig : Config :=
  { FIXED_FEE := ⟨150, -2⟩, VOLUME_FEE := ⟨5, 0⟩, USER_TX_LIMIT := ⟨100, 0⟩,
    BRIDGE_TX_LIMIT := ⟨500, 0⟩, SEPA_API := some "http://sepa/",
    SEPA_API_AUTH := "auth" }

/-- A verified notification paying 110 (amount + fee of `exTicket`). -/
def exNotif : Notification :=
  { tx_hash := "txh", sender := "rsender", amount := "110", currency := "EUR",
    invoice_id := some "abc" }

/-- `exTicket` after settlement has already run. -/
def exTicketSent : Ticket := { exTicket with status := "sent" }

/-! ## The claims -/

/-- C1: a verified, amount-matching notification for a ticket that is
neither `quoted` nor `received` makes the handler raise the fatal
`RuntimeError` guard, mutate no field of the ticket (the session and the
persisted state both remain the pre-request ticket), and emit no event at
all — in particular no settlement call. -/
theorem claim_C1 (cfg : Config) (db : List Ticket) (n : Notification)
    (resp : SepaResponse) (t : Ticket) (pa : Dec)
    (hfind : findTicket db n.invoice_id = some t)
    (hamt : parseDecimal n.amount = some pa)
    (heq : decEqv pa (decAdd t.amount t.fee) = true)
    (hst : ¬ (t.status = "received" ∨ t.status = "quoted")) :
    on_payment_received cfg db true n resp =
      ⟨[], some t, .exn (.runtimeError ("Ticket was already processed: " ++ t.id))⟩ ∧
    persistedTicket (some t) (on_payment_received cfg db true n resp) = some t := by
  have hmain : on_payment_received cfg db true n resp =
      ⟨[], some t, .exn (.runtimeError ("Ticket was already processed: " ++ t.id))⟩ := by
    unfold on_payment_received
    rw [if_neg (by simp)]
    rw [hfind]
    simp only [hamt, heq, if_true, hst, not_false_eq_true]
  exact ⟨hmain, by rw [hmain]; rfl⟩

/-- Witness for C1: the replayed `exNotif` against the already-`sent`
ticket satisfies the hypotheses, and the conclusion holds there. -/
theorem claim_C1_witness :
    (findTicket [exTicketSent] exNotif.invoice_id = some exTicketSent ∧
     parseDecimal exNotif.amount = some ⟨110, 0⟩ ∧
     decEqv ⟨110, 0⟩ (decAdd exTicketSent.amount exTicketSent.fee) = true ∧
     ¬ (exTicketSent.status = "received" ∨ exTicketSent.status = "quoted")) ∧
    (on_payment_received exConfig [exTicketSent] true exNotif (.response 200 none) =
      ⟨[], some exTicketSent,
       .exn (.runtimeError ("Ticket was already processed: " ++ exTicketSent.id))⟩ ∧
     persistedTicket (some exTicketSent)
       (on_payment_received exConfig [exTicketSent] true exNotif (.response 200 none)) =
       some exTicketSent) :=
  ⟨⟨by decide, by decide, by decide, by decide⟩,
   claim_C1 exConfig [exTicketSent] exNotif (.response 200 none) exTicketSent ⟨110, 0⟩
     (by decide) (by decide) (by decide) (by decide)⟩

/-- C2: a verified, amount-matching notification on a `quoted` ticket with
a settlement backend configured, whose settlement call succeeds, produces
exactly the trace: commit in `received`, commit in `sending`, the
settlement call, commit in `sent`, success email — so both the `received`
and the `sending` commits precede the settlement call, the `sent` commit
follows it, each status change is a separate commit, and the settlement
instruction fields are intact in every commit (cleared only in the final
session state, after `sent`, which the teardown then persists). -/
theorem claim_C2 (cfg : Config) (db : List Ticket) (n : Notification)
    (resp : SepaResponse) (t : Ticket) (pa : Dec) (api : String)
    (hfind : findTicket db n.invoice_id = some t)
    (hamt : parseDecimal n.amount = some pa)
    (heq : decEqv pa (decAdd t.amount t.fee) = true)
    (hst : t.status = "quoted")
    (hapi : cfg.SEPA_API = some api)
    (hok : sepaError resp = none) :
    on_payment_received cfg db true n resp =
      ⟨[.commit { t with ripple_address := some n.sender, status := "received" },
        .commit { t with ripple_address := some n.sender, status := "sending" },
        .sepaCall api cfg.SEPA_API_AUTH
          ⟨strTake t.id 35, t.recipient_name, t.bic, t.iban, formatComma2 t.amount,
           "sepa.link: " ++ t.text, n.tx_hash⟩,
        .commit { t with ripple_address := some n.sender, status := "sent" },
        .email "SEPA bridge: Transaction processed"],
       some { t with
              ripple_address := some n.sender, status := "sent",
              bic := "", iban := "", recipient_name := "", text := "" },
       .resp "OK" 200⟩ ∧
    persistedTicket (some t) (on_payment_received cfg db true n resp) =
      some { t with
             ripple_address := some n.sender, status := "sent",
             bic := "", iban := "", recipient_name := "", text := "" } := by
  have hguard : t.status = "received" ∨ t.status = "quoted" := Or.inr hst
  have hmain : on_payment_received cfg db true n resp =
      ⟨[.commit { t with ripple_address := some n.sender, status := "received" },
        .commit { t with ripple_address := some n.sender, status := "sending" },
        .sepaCall api cfg.SEPA_API_AUTH
          ⟨strTake t.id 35, t.recipient_name, t.bic, t.iban, formatComma2 t.amount,
           "sepa.link: " ++ t.text, n.tx_hash⟩,
        .commit { t with ripple_address := some n.sender, status := "sent" },
        .email "SEPA bridge: Transaction processed"],
       some { t with
              ripple_address := some n.sender, status := "sent",
              bic := "", iban := "", recipient_name := "", text := "" },
       .resp "OK" 200⟩ := by
    unfold on_payment_received
    rw [if_neg (by simp), hfind]
    simp only [hamt, heq, if_true, hguard, not_true, if_false, hapi, hok]
    rfl
  exact ⟨hmain, by rw [hmain]; rfl⟩

/-- Witness for C2: the test-suite scenario (quoted ticket, matching
notification of 110, backend answering 200 with no error). -/
theorem claim_C2_witness :
    (findTicket [exTicket] exNotif.invoice_id = some exTicket ∧
     parseDecimal exNotif.amount = some ⟨110, 0⟩ ∧
     decEqv ⟨110, 0⟩ (decAdd exTicket.amount exTicket.fee) = true ∧
     exTicket.status = "quoted" ∧
     exConfig.SEPA_API = some "http://sepa/" ∧
     sepaError (.response 200 none) = none) ∧
    on_payment_received exConfig [exTicket] true exNotif (.response 200 none) =
      ⟨[.commit { exTicket with ripple_address := some "rsender", status := "received" },
        .commit { exTicket with ripple_address := some "rsender", status := "sending" },
        .sepaCall "http://sepa/" "auth"
          ⟨"abc", "A User", "DABADKKK", "GB82WEST12345698765432", "100.00",
           "sepa.link: Yadda", "txh"⟩,
        .commit { exTicket with ripple_address := some "rsender", status := "sent" },
        .email "SEPA bridge: Transaction processed"],
       some { exTicket with
              ripple_address := some "rsender", status := "sent",
              bic := "", iban := "", recipient_name := "", text := "" },
       .resp "OK" 200⟩ :=
  ⟨⟨by decide, by decide, by decide, by decide, by decide, by decide⟩,
   ((claim_C2 exConfig [exTicket] exNotif (.response 200 none) exTicket ⟨110, 0⟩
      "http://sepa/" (by decide) (by decide) (by decide) (by decide) (by decide)
      (by decide)).1).trans (by decide)⟩

/-- C3: when the settlement backend call fails (exception, bad status, or
an error field in the body), the handler commits the ticket back in
`received` as the final commit, does not clear the settlement instruction
fields (every recorded state keeps them), never reaches `sent`, persists
the reverted `received` state, and raises (`ValueError`). -/
theorem claim_C3 (cfg : Config) (db : List Ticket) (n : Notification)
    (resp : SepaResponse) (t : Ticket) (pa : Dec) (api err : String)
    (hfind : findTicket db n.invoice_id = some t)
    (hamt : parseDecimal n.amount = some pa)
    (heq : decEqv pa (decAdd t.amount t.fee) = true)
    (hst : t.status = "received" ∨ t.status = "quoted")
    (hapi : cfg.SEPA_API = some api)
    (hfail : sepaError resp = some err) :
    on_payment_received cfg db true n resp =
      ⟨[.commit { t with ripple_address := some n.sender, status := "received" },
        .commit { t with ripple_address := some n.sender, status := "sending" },
        .sepaCall api cfg.SEPA_API_AUTH
          ⟨strTake t.id 35, t.recipient_name, t.bic, t.iban, formatComma2 t.amount,
           "sepa.link: " ++ t.text, n.tx_hash⟩,
        .commit { t with ripple_address := some n.sender, status := "received" }],
       some { t with ripple_address := some n.sender, status := "received" },
       .exn (.valueError err)⟩ ∧
    persistedTicket (some t) (on_payment_received cfg db true n resp) =
      some { t with ripple_address := some n.sender, status := "received" } := by
  have hmain : on_payment_received cfg db true n resp =
      ⟨[.commit { t with ripple_address := some n.sender, status := "received" },
        .commit { t with ripple_address := some n.sender, status := "sending" },
        .sepaCall api cfg.SEPA_API_AUTH
          ⟨strTake t.id 35, t.recipient_name, t.bic, t.iban, formatComma2 t.amount,
           "sepa.link: " ++ t.text, n.tx_hash⟩,
        .commit { t with ripple_address := some n.sender, status := "received" }],
       some { t with ripple_address := some n.sender, status := "received" },
       .exn (.valueError err)⟩ := by
    unfold on_payment_received
    rw [if_neg (by simp), hfind]
    simp only [hamt, heq, if_true, hst, not_true, if_false, hapi, hfail]
  exact ⟨hmain, by rw [hmain]; rfl⟩

/-- Witness for C3: the backend answers HTTP 500, so the ticket is parked
back in `received` and the failure is raised. -/
theorem claim_C3_witness :
    (findTicket [exTicket] exNotif.invoice_id = some exTicket ∧
     parseDecimal exNotif.amount = some ⟨110, 0⟩ ∧
     decEqv ⟨110, 0⟩ (decAdd exTicket.amount exTicket.fee) = true ∧
     (exTicket.status = "received" ∨ exTicket.status = "quoted") ∧
     exConfig.SEPA_API = some "http://sepa/" ∧
     sepaError (.response 500 none) = some "Unexpected status code: 500") ∧
    (on_payment_received exConfig [exTicket] true exNotif (.response 500 none) =
      ⟨[.commit { exTicket with ripple_address := some "rsender", status := "received" },
        .commit { exTicket with ripple_address := some "rsender", status := "sending" },
        .sepaCall "http://sepa/" "auth"
          ⟨"abc", "A User", "DABADKKK", "GB82WEST12345698765432", "100.00",
           "sepa.link: Yadda", "txh"⟩,
        .commit { exTicket with ripple_address := some "rsender", status := "received" }],
       some { exTicket with ripple_address := some "rsender", status := "received" },
       .exn (.valueError "Unexpected status code: 500")⟩ ∧
     persistedTicket (some exTicket)
       (on_payment_received exConfig [exTicket] true exNotif (.response 500 none)) =
       some { exTicket with ripple_address := some "rsender", status := "received" }) :=
  ⟨⟨by decide, by decide, by decide, by decide, by decide, by decide⟩,
   claim_C3 exConfig [exTicket] exNotif (.response 500 none) exTicket ⟨110, 0⟩
     "http://sepa/" "Unexpected status code: 500" (by decide) (by decide) (by decide)
     (by decide) (by decide) (by decide)⟩

/-- C4: a verified notification that matches a ticket but whose amount does
not equal `amount + fee` sets `failed = 'unexpected'`, leaves every other
field (in particular `status`) unchanged, sends the operator email, makes
no settlement call nor any commit event, and still answers 200 OK; the
teardown persists the tagged ticket. -/
theorem claim_C4 (cfg : Config) (db : List Ticket) (n : Notification)
    (resp : SepaResponse) (t : Ticket) (pa : Dec)
    (hfind : findTicket db n.invoice_id = some t)
    (hamt : parseDecimal n.amount = some pa)
    (hneq : decEqv pa (decAdd t.amount t.fee) = false) :
    on_payment_received cfg db true n resp =
      ⟨[.email "Received payment with unexpected amount"],
       some { t with failed := some "unexpected" }, .resp "OK" 200⟩ ∧
    persistedTicket (some t) (on_payment_received cfg db true n resp) =
      some { t with failed := some "unexpected" } := by
  have hmain : on_payment_received cfg db true n resp =
      ⟨[.email "Received payment with unexpected amount"],
       some { t with failed := some "unexpected" }, .resp "OK" 200⟩ := by
    unfold on_payment_received
    rw [if_neg (by simp), hfind]
    simp only [hamt, hneq, Bool.false_eq_true, if_false]
  exact ⟨hmain, by rw [hmain]; rfl⟩

/-- Witness for C4: a notification of 50 against amount + fee = 110. -/
theorem claim_C4_witness :
    (findTicket [exTicket] exNotif.invoice_id = some exTicket ∧
     parseDecimal "50" = some ⟨50, 0⟩ ∧
     decEqv ⟨50, 0⟩ (decAdd exTicket.amount exTicket.fee) = false) ∧
    (on_payment_received exConfig [exTicket] true { exNotif with amount := "50" }
        (.response 200 none) =
      ⟨[.email "Received payment with unexpected amount"],
       some { exTicket with failed := some "unexpected" }, .resp "OK" 200⟩ ∧
     persistedTicket (some exTicket)
       (on_payment_received exConfig [exTicket] true { exNotif with amount := "50" }
         (.response 200 none)) =
       some { exTicket with failed := some "unexpected" }) :=
  ⟨⟨by decide, by decide, by decide⟩,
   claim_C4 exConfig [exTicket] { exNotif with amount := "50" } (.response 200 none)
     exTicket ⟨50, 0⟩ (by decide) (by decide) (by decide)⟩

/-- C10: the handler never reads `data.currency`: its outcome (events,
session ticket, response) is invariant under changing the currency of a
notification, all else equal; concretely, the matching notification with
currency `XRP` still advances `exTicket` through settlement to `sent`. -/
theorem claim_C10 :
    (∀ (cfg : Config) (db : List Ticket) (verified : Bool) (n : Notification)
       (resp : SepaResponse) (c : String),
       on_payment_received cfg db verified { n with currency := c } resp =
         on_payment_received cfg db verified n resp) ∧
    on_payment_received exConfig [exTicket] true { exNotif with currency := "XRP" }
        (.response 200 none) =
      ⟨[.commit { exTicket with ripple_address := some "rsender", status := "received" },
        .commit { exTicket with ripple_address := some "rsender", status := "sending" },
        .sepaCall "http://sepa/" "auth"
          ⟨"abc", "A User", "DABADKKK", "GB82WEST12345698765432", "100.00",
           "sepa.link: Yadda", "txh"⟩,
        .commit { exTicket with ripple_address := some "rsender", status := "sent" },
        .email "SEPA bridge: Transaction processed"],
       some { exTicket with
              ripple_address := some "rsender", status := "sent",
              bic := "", iban := "", recipient_name := "", text := "" },
       .resp "OK" 200⟩ := by
  constructor
  · intro cfg db verified n resp c
    cases n
    rfl
  · decide

/-- The fully valid recipient used by the quote fixtures. -/
def exSepa : SepaData := ⟨"User", "GB82WEST12345698765432", "DABADKKK", "Text"⟩

/-- Counterexample to C6 as stated: a quote request for `-5.00/EUR` with a
fully valid recipient.  The amount is negative (and has two decimal
places), yet the quote passes every check — the source never tests for
negativity — and creates a ticket of amount -5 instead of rejecting with
`invalidAmount`. -/
theorem claim_C6_counterexample :
    validate_sepa exSepa = none ∧
    parseDecimal "-5.00" = some ⟨-500, -2⟩ ∧
    decLt ⟨-500, -2⟩ ⟨0, 0⟩ = true ∧
    quantize2 ⟨-500, -2⟩ = some ⟨-500, -2⟩ ∧
    decEqv ⟨-500, -2⟩ ⟨-500, -2⟩ = true ∧
    (quote exConfig [] 0 "tid1" exSepa "-5.00/EUR").isSuccess = true ∧
    (quoteTicket (quote exConfig [] 0 "tid1" exSepa "-5.00/EUR")).map Ticket.amount =
      some ⟨-500, -2⟩ := by
  refine ⟨by decide, by decide, by decide, by decide, by decide, by decide, by decide⟩

/-- C6 amended: a quote request that passes recipient validation and whose
amount parses but is *not* expressible with at most 2 decimal places (its
2-cent quantization, when representable, differs from it in value) is
rejected with the `invalidAmount` error and creates no ticket.  Negative
amounts are not rejected; an amount whose quantization overflows the
28-digit context raises instead of returning `invalidAmount`. -/
theorem claim_C6_amended (cfg : Config) (db : List Ticket) (today : Int)
    (newId : String) (sepa : SepaData) (amountParam amtStr : String) (a q : Dec)
    (hsepa : validate_sepa sepa = none)
    (hsplit : splitOnChar '/' amountParam = [amtStr, "EUR"])
    (hparse : parseDecimal amtStr = some a)
    (hq : quantize2 a = some q)
    (hne : decEqv q a = false) :
    quote cfg db today newId sepa amountParam =
      .err "invalidAmount" "The amount must be divisible by 1 cent" := by
  unfold quote
  rw [hsepa]
  simp only [hsplit, hparse, hq, hne, ne_eq, not_true_eq_false, if_false, if_true,
    Bool.false_eq_true]

/-- Witness for the amended C6: the test-suite amount `100.88000009` is
rejected with `invalidAmount`. -/
theorem claim_C6_amended_witness :
    (validate_sepa exSepa = none ∧
     splitOnChar '/' "100.88000009/EUR" = ["100.88000009", "EUR"] ∧
     parseDecimal "100.88000009" = some ⟨10088000009, -8⟩ ∧
     quantize2 ⟨10088000009, -8⟩ = some ⟨10088, -2⟩ ∧
     decEqv ⟨10088, -2⟩ ⟨10088000009, -8⟩ = false) ∧
    quote exConfig [] 0 "tid1" exSepa "100.88000009/EUR" =
      .err "invalidAmount" "The amount must be divisible by 1 cent" :=
  ⟨⟨by decide, by decide, by decide, by decide, by decide⟩,
   claim_C6_amended exConfig [] 0 "tid1" exSepa "100.88000009/EUR" "100.88000009"
     ⟨10088000009, -8⟩ ⟨10088, -2⟩ (by decide) (by decide) (by decide) (by decide)
     (by decide)⟩

/-- C7: with the per-recipient limit configured non-zero and the
bridge-wide limit disabled (zero — isolating the per-recipient check), an
otherwise valid quote is rejected with `limitExceeded` exactly when
`V + a` strictly exceeds the limit, where `V` is the recipient volume
returned by `tx_volume_today`; a zero per-recipient limit produces no
`limitExceeded` at all.  The final conjunct identifies `V` with the sum of
`amount` over the tickets with that IBAN, status other than `quoted`,
created today (0 when none exist).  `hadd` mirrors the 28-digit context of
the source's `amount + cur_volume`: within precision the decimal
comparison is the exact rational one. -/
theorem claim_C7 (cfg : Config) (db : List Ticket) (today : Int)
    (newId : String) (sepa : SepaData) (amountParam amtStr : String) (a q : Dec)
    (hsepa : validate_sepa sepa = none)
    (hsplit : splitOnChar '/' amountParam = [amtStr, "EUR"])
    (hparse : parseDecimal amtStr = some a)
    (hq : quantize2 a = some q)
    (heqv : decEqv q a = true)
    (hbridge : cfg.BRIDGE_TX_LIMIT.m = 0)
    (hadd : numDigits
      (decAddExact a (tx_volume_today db today (some sepa.iban))).m.natAbs ≤ 28) :
    ((cfg.USER_TX_LIMIT.toRat ≠ 0 →
      ((∃ msg, quote cfg db today newId sepa amountParam = .err "limitExceeded" msg) ↔
        cfg.USER_TX_LIMIT.toRat <
          (tx_volume_today db today (some sepa.iban)).toRat + a.toRat)) ∧
     (cfg.USER_TX_LIMIT.toRat = 0 →
      ∀ msg, quote cfg db today newId sepa amountParam ≠ .err "limitExceeded" msg)) ∧
    (tx_volume_today db today (some sepa.iban)).toRat =
      ((db.filter fun t =>
          (t.status != "quoted") && (t.created_day == today) &&
          (if sepa.iban = "" then true else t.iban == sepa.iban)).map
        fun t => t.amount.toRat).sum := by
  have hbnz : decNZ cfg.BRIDGE_TX_LIMIT = false := by
    unfold decNZ
    simp [hbridge]
  have htrue : (decNZ cfg.USER_TX_LIMIT &&
      decLt cfg.USER_TX_LIMIT (decAdd a (tx_volume_today db today (some sepa.iban)))) = true →
      quote cfg db today newId sepa amountParam =
        .err "limitExceeded"
          ("The amount you are trying to send is too large (limit: " ++
            decStr cfg.USER_TX_LIMIT ++ ")") := by
    intro hc
    unfold quote
    rw [hsepa]
    simp only [hsplit, hparse, hq, heqv, hc, ne_eq, not_true_eq_false, if_false, if_true,
      Bool.true_eq_false]
  have hfalse : (decNZ cfg.USER_TX_LIMIT &&
      decLt cfg.USER_TX_LIMIT (decAdd a (tx_volume_today db today (some sepa.iban)))) = false →
      ∃ t v, quote cfg db today newId sepa amountParam = .success t v := by
    intro hc
    unfold quote
    rw [hsepa]
    simp only [hsplit, hparse, hq, heqv, hc, hbnz, Bool.false_and, ne_eq,
      not_true_eq_false, if_false, if_true, Bool.true_eq_false, Bool.false_eq_true]
    exact ⟨_, _, rfl⟩
  have hval : (decAdd a (tx_volume_today db today (some sepa.iban))).toRat =
      a.toRat + (tx_volume_today db today (some sepa.iban)).toRat :=
    toRat_decAdd _ _ hadd
  refine ⟨⟨?_, ?_⟩, tx_volume_today_toRat db today (some sepa.iban)⟩
  · intro hU
    have hnz : decNZ cfg.USER_TX_LIMIT = true := (decNZ_iff _).mpr hU
    constructor
    · rintro ⟨msg, hmsg⟩
      cases hcl : decLt cfg.USER_TX_LIMIT
          (decAdd a (tx_volume_today db today (some sepa.iban))) with
      | false =>
        obtain ⟨t, v, hs⟩ := hfalse (by rw [hnz, hcl, Bool.and_false])
        rw [hs] at hmsg
        exact absurd hmsg (by simp)
      | true =>
        have := (decLt_iff _ _).mp hcl
        rw [hval] at this
        linarith
    · intro hlt
      have hcl : decLt cfg.USER_TX_LIMIT
          (decAdd a (tx_volume_today db today (some sepa.iban))) = true := by
        rw [decLt_iff, hval]
        linarith
      exact ⟨_, htrue (by rw [hnz, hcl, Bool.and_self])⟩
  · intro hU0 msg hcontra
    have hnz : decNZ cfg.USER_TX_LIMIT = false := by
      cases h : decNZ cfg.USER_TX_LIMIT with
      | false => rfl
      | true => exact absurd hU0 ((decNZ_iff _).mp h)
    obtain ⟨t, v, hs⟩ := hfalse (by rw [hnz, Bool.false_and])
    rw [hs] at hcontra
    exact absurd hcontra (by simp)

/-- `exConfig` with the bridge-wide limit disabled. -/
def exConfigNB : Config := { exConfig with BRIDGE_TX_LIMIT := ⟨0, 0⟩ }

/-- An already-paid ticket of amount 90 for the fixture IBAN, created
today. -/
def exTicket90 : Ticket := { exTicket with amount := ⟨90, 0⟩, status := "received" }

/-- Witness for C7: limit 100, an existing `received` ticket of 90 for the
same IBAN, and a new quote of 12. -/
theorem claim_C7_witness :
    (validate_sepa exSepa = none ∧
     splitOnChar '/' "12.00/EUR" = ["12.00", "EUR"] ∧
     parseDecimal "12.00" = some ⟨1200, -2⟩ ∧
     quantize2 ⟨1200, -2⟩ = some ⟨1200, -2⟩ ∧
     decEqv ⟨1200, -2⟩ ⟨1200, -2⟩ = true ∧
     exConfigNB.BRIDGE_TX_LIMIT.m = 0 ∧
     numDigits (decAddExact ⟨1200, -2⟩
       (tx_volume_today [exTicket90] 0 (some exSepa.iban))).m.natAbs ≤ 28) ∧
    (((exConfigNB.USER_TX_LIMIT.toRat ≠ 0 →
      ((∃ msg, quote exConfigNB [exTicket90] 0 "tid2" exSepa "12.00/EUR" =
          .err "limitExceeded" msg) ↔
        exConfigNB.USER_TX_LIMIT.toRat <
          (tx_volume_today [exTicket90] 0 (some exSepa.iban)).toRat +
            (⟨1200, -2⟩ : Dec).toRat)) ∧
     (exConfigNB.USER_TX_LIMIT.toRat = 0 →
      ∀ msg, quote exConfigNB [exTicket90] 0 "tid2" exSepa "12.00/EUR" ≠
        .err "limitExceeded" msg)) ∧
    (tx_volume_today [exTicket90] 0 (some exSepa.iban)).toRat =
      (([exTicket90].filter fun t =>
          (t.status != "quoted") && (t.created_day == (0 : Int)) &&
          (if exSepa.iban = "" then true else t.iban == exSepa.iban)).map
        fun t => t.amount.toRat).sum) :=
  ⟨⟨by decide, by decide, by decide, by decide, by decide, by decide, by decide⟩,
   claim_C7 exConfigNB [exTicket90] 0 "tid2" exSepa "12.00/EUR" "12.00" ⟨1200, -2⟩
     ⟨1200, -2⟩ (by decide) (by decide) (by decide) (by decide) (by decide) (by decide)
     (by decide)⟩

/-- The configuration used by the C5 counterexample: no fixed fee, 5
percent volume fee, both limits disabled so that a very large amount is
accepted. -/
def cfgBig : Config :=
  { FIXED_FEE := ⟨0, 0⟩, VOLUME_FEE := ⟨5, 0⟩, USER_TX_LIMIT := ⟨0, 0⟩,
    BRIDGE_TX_LIMIT := ⟨0, 0⟩, SEPA_API := none, SEPA_API_AUTH := "" }

/-- Counterexample to C5 as stated: the amount
`99999999999999999999999999.99` (28 significant digits, two decimal
places, non-negative) is accepted, but the product
`a * (volume_fee / 100)` has a 29-digit coefficient, which the default
Python decimal context rounds half-even to 28 digits; the stored fee is
`5000000000000000000000000.000` and differs from the exact
`fixed_fee + a * (volume_fee / 100) = 4999999999999999999999999.9995`. -/
theorem claim_C5_counterexample :
    (quote cfgBig [] 0 "t28" exSepa
      "99999999999999999999999999.99/EUR").isSuccess = true ∧
    (quoteTicket (quote cfgBig [] 0 "t28" exSepa
      "99999999999999999999999999.99/EUR")).map Ticket.fee =
      some ⟨5000000000000000000000000000, -3⟩ ∧
    parseDecimal "99999999999999999999999999.99" = some ⟨(10 : Int) ^ 28 - 1, -2⟩ ∧
    0 ≤ ((10 : Int) ^ 28 - 1) ∧
    (⟨5000000000000000000000000000, -3⟩ : Dec).toRat ≠
      cfgBig.FIXED_FEE.toRat +
        (⟨(10 : Int) ^ 28 - 1, -2⟩ : Dec).toRat * (cfgBig.VOLUME_FEE.toRat / 100) := by
  refine ⟨by decide, by decide, by decide, by decide, ?_⟩
  have h2 : qpow10 (-2) = (100 : ℚ)⁻¹ := by
    rw [qpow10_eq_zpow]
    norm_num
  have h3 : qpow10 (-3) = (1000 : ℚ)⁻¹ := by
    rw [qpow10_eq_zpow]
    norm_num
  have h0 : qpow10 0 = 1 := by
    rw [qpow10_eq_zpow]
    norm_num
  unfold Dec.toRat cfgBig
  rw [h2, h3, h0]
  norm_num

/-- C5 amended (corrected): for an accepted quote, *provided the decimal
coefficients of the intermediate results — the volume-fee quotient, the
product, and the aligned sum — stay within the 28-significant-digit
precision of the default Python decimal context*, the stored fee is
exactly `fixed_fee + a * (volume_fee / 100)`: the computation is decimal
fixed-point with no binary floating-point rounding.  (Coefficients beyond
28 significant digits are rounded half-even by the context; see the
counterexample.) -/
theorem claim_C5_amended (cfg : Config) (db : List Ticket) (today : Int)
    (newId : String) (sepa : SepaData) (amountParam amtStr : String)
    (a : Dec) (t : Ticket) (v : Dec)
    (hsplit : splitOnChar '/' amountParam = [amtStr, "EUR"])
    (hparse : parseDecimal amtStr = some a)
    (h0 : 0 ≤ a.m)
    (hsucc : quote cfg db today newId sepa amountParam = .success t v)
    (h1 : numDigits cfg.VOLUME_FEE.m.natAbs ≤ 28)
    (h2 : numDigits (decMulExact a (decDiv100Exact cfg.VOLUME_FEE)).m.natAbs ≤ 28)
    (h3 : numDigits (decAddExact cfg.FIXED_FEE
      (decMul a (decDiv100 cfg.VOLUME_FEE))).m.natAbs ≤ 28) :
    0 ≤ a.toRat ∧
    t.fee.toRat = cfg.FIXED_FEE.toRat + a.toRat * (cfg.VOLUME_FEE.toRat / 100) := by
  have h0r : 0 ≤ a.toRat := by
    unfold Dec.toRat
    exact mul_nonneg (by exact_mod_cast h0) (le_of_lt (qpow10_pos a.e))
  have hfee : t.fee = decAdd cfg.FIXED_FEE (decMul a (decDiv100 cfg.VOLUME_FEE)) := by
    unfold quote at hsucc
    cases hv : validate_sepa sepa with
    | some e =>
      rw [hv] at hsucc
      exact absurd hsucc (by simp)
    | none =>
      rw [hv] at hsucc
      simp only [hsplit, hparse] at hsucc
      cases hqz : quantize2 a with
      | none =>
        simp only [hqz] at hsucc
        exact absurd hsucc (by simp)
      | some q =>
        simp only [hqz] at hsucc
        split_ifs at hsucc
        cases hsucc
        rfl
  have hY : decDiv100 cfg.VOLUME_FEE = decDiv100Exact cfg.VOLUME_FEE :=
    round28_eq_self (decDiv100Exact cfg.VOLUME_FEE) h1
  refine ⟨h0r, ?_⟩
  rw [hfee, toRat_decAdd _ _ h3, hY, toRat_decMul _ _ h2, toRat_decDiv100Exact]

/-- Witness for the amended C5: the test-suite quote of `22.00` with fee
`1.50 + 22 * 5 / 100 = 2.60`. -/
theorem claim_C5_amended_witness :
    (splitOnChar '/' "22.00/EUR" = ["22.00", "EUR"] ∧
     parseDecimal "22.00" = some ⟨2200, -2⟩ ∧
     0 ≤ (⟨2200, -2⟩ : Dec).m ∧
     quote exConfig [] 0 "tid3" exSepa "22.00/EUR" =
       .success (Ticket.new "tid3" 0 ⟨2200, -2⟩ ⟨26000, -4⟩ exSepa) ⟨246000, -4⟩ ∧
     numDigits exConfig.VOLUME_FEE.m.natAbs ≤ 28 ∧
     numDigits (decMulExact ⟨2200, -2⟩ (decDiv100Exact exConfig.VOLUME_FEE)).m.natAbs ≤ 28 ∧
     numDigits (decAddExact exConfig.FIXED_FEE
       (decMul ⟨2200, -2⟩ (decDiv100 exConfig.VOLUME_FEE))).m.natAbs ≤ 28) ∧
    (0 ≤ (⟨2200, -2⟩ : Dec).toRat ∧
     (Ticket.new "tid3" 0 ⟨2200, -2⟩ ⟨26000, -4⟩ exSepa).fee.toRat =
       exConfig.FIXED_FEE.toRat +
         (⟨2200, -2⟩ : Dec).toRat * (exConfig.VOLUME_FEE.toRat / 100)) :=
  ⟨⟨by decide, by decide, by decide, by decide, by decide, by decide, by decide⟩,
   claim_C5_amended exConfig [] 0 "tid3" exSepa "22.00/EUR" "22.00" ⟨2200, -2⟩
     (Ticket.new "tid3" 0 ⟨2200, -2⟩ ⟨26000, -4⟩ exSepa) ⟨246000, -4⟩ (by decide)
     (by decide) (by decide) (by decide) (by decide) (by decide) (by decide)⟩

/-! ## Lemmas about splitting and the SEPA encoding -/

theorem data_append (s t : String) : (s ++ t).data = s.data ++ t.data := by
  cases s
  cases t
  rfl

theorem mk_data (s : String) : String.mk s.data = s := by
  cases s
  rfl

theorem splitCh_no_sep (sep : Char) (l : List Char) (h : sep ∉ l) : splitCh sep l = [l] := by
  induction l with
  | nil => rfl
  | cons c rest ih =>
    have hc : ¬ c = sep := by
      intro hcc
      exact h (by rw [← hcc]; exact List.mem_cons_self c rest)
    have hrest : sep ∉ rest := fun hr => h (List.mem_cons_of_mem _ hr)
    simp only [splitCh, if_neg hc, ih hrest]

theorem splitCh_append (sep : Char) (a b : List Char) (h : sep ∉ a) :
    splitCh sep (a ++ sep :: b) = a :: splitCh sep b := by
  induction a with
  | nil => simp [splitCh]
  | cons c rest ih =>
    have hc : ¬ c = sep := by
      intro hcc
      exact h (by rw [← hcc]; exact List.mem_cons_self c rest)
    have hrest : sep ∉ rest := fun hr => h (List.mem_cons_of_mem _ hr)
    simp only [List.cons_append, splitCh, List.append_eq, if_neg hc, ih hrest]

theorem bicVE_elim (r : Except PyErr String) (h : bicVE r = true) :
    ∃ m, r = .error (.valueError m) := by
  cases r with
  | ok v => exact absurd h (by simp [bicVE])
  | error e =>
    cases e
    case valueError m => exact ⟨m, rfl⟩
    all_goals exact absurd h (by simp [bicVE])

theorem exceptOk_elim (r : Except PyErr String) (v : String) (h : exceptOk r = some v) :
    r = .ok v := by
  cases r with
  | ok w =>
    simp only [exceptOk, Option.some.injEq] at h
    rw [h]
  | error e => simp [exceptOk] at h

theorem enable_spaces_ne_empty (s : String) (h : s ≠ "") : enable_spaces s ≠ "" := by
  cases s with
  | mk data =>
    cases data with
    | nil => exact absurd rfl h
    | cons c rest =>
      intro hh
      unfold enable_spaces at hh
      simpa using congrArg String.data hh

/-- C8 amended (corrected): the round trip `parse(unparse(x)) = x` (with
`+` restored to spaces in name and text) holds for a structured recipient
whose IBAN and BIC validate and are returned verbatim by their validators,
under the additional conditions the positional recovery needs: neither the
name nor the text may itself be accepted by the BIC or IBAN validator (the
loop captures such a segment, see the counterexample), the BIC check must
fail on the IBAN with a plain ValueError (true of real IBANs, whose length
is neither 8 nor 11), likewise for name and text, and no segment contains
'/' or ' '. -/
theorem claim_C8_amended (x : SepaData)
    (hn : x.name ≠ "")
    (hnS : ' ' ∉ x.name.data ∧ '/' ∉ x.name.data)
    (htS : ' ' ∉ x.text.data ∧ '/' ∉ x.text.data)
    (hiS : ' ' ∉ x.iban.data ∧ '/' ∉ x.iban.data)
    (hbS : ' ' ∉ x.bic.data ∧ '/' ∉ x.bic.data)
    (hiban : iban_validate x.iban = some x.iban)
    (hbic : exceptOk (validate_swift_bic x.bic) = some x.bic)
    (hibanNB : bicVE (validate_swift_bic x.iban) = true)
    (hnameNB : bicVE (validate_swift_bic x.name) = true)
    (hnameNI : iban_validate x.name = none)
    (htextNB : bicVE (validate_swift_bic x.text) = true)
    (htextNI : iban_validate x.text = none) :
    parse_sepa_data (unparseSepa x) =
      .ok ⟨enable_spaces x.name, x.iban, x.bic, enable_spaces x.text⟩ := by
  obtain ⟨mN, hbN⟩ := bicVE_elim _ hnameNB
  obtain ⟨mI, hbI⟩ := bicVE_elim _ hibanNB
  obtain ⟨mT, hbT⟩ := bicVE_elim _ htextNB
  have hbOk : validate_swift_bic x.bic = .ok x.bic := exceptOk_elim _ _ hbic
  have hibanNE : x.iban ≠ "" := by
    intro hx
    rw [hx] at hiban
    exact absurd hiban (by decide)
  have hbicNE : x.bic ≠ "" := by
    intro hx
    rw [hx] at hbic
    exact absurd hbic (by decide)
  have hrnNE : enable_spaces x.name ≠ "" := enable_spaces_ne_empty _ hn
  have hslash : ("/" : String).data = ['/'] := rfl
  by_cases ht : x.text = ""
  · have hdata : (unparseSepa x).data =
        x.name.data ++ '/' :: (x.iban.data ++ '/' :: x.bic.data) := by
      unfold unparseSepa
      rw [if_pos ht]
      simp [data_append, hslash, List.append_assoc]
    have hsplitU : splitCh '/' (unparseSepa x).data =
        [x.name.data, x.iban.data, x.bic.data] := by
      rw [hdata, splitCh_append _ _ _ hnS.2, splitCh_append _ _ _ hiS.2,
        splitCh_no_sep _ _ hbS.2]
    have hspace : ¬ (' ' ∈ (unparseSepa x).data) := by
      rw [hdata]
      simp only [List.mem_append, List.mem_cons]
      push_neg
      exact ⟨hnS.1, by decide, hiS.1, by decide, hbS.1⟩
    have hloop : psdLoop 3 0 [x.name, x.iban, x.bic] ("", "", "", "") =
        .ok (enable_spaces x.name, "", x.iban, x.bic) := by
      simp [psdLoop, hbN, hbI, hbOk, hnameNI, hiban]
    unfold parse_sepa_data
    rw [if_neg hspace, hsplitU]
    simp only [List.map_cons, List.map_nil, mk_data, List.length_cons, List.length_nil]
    rw [if_neg (by norm_num)]
    simp only [hloop]
    rw [if_neg hibanNE, if_neg hbicNE, if_neg (fun hc => hrnNE hc.1)]
    rw [ht]
    rfl
  · have hdata : (unparseSepa x).data =
        x.name.data ++ '/' :: (x.iban.data ++ '/' :: (x.bic.data ++ '/' :: x.text.data)) := by
      unfold unparseSepa
      rw [if_neg ht]
      simp [data_append, hslash, List.append_assoc]
    have hsplitU : splitCh '/' (unparseSepa x).data =
        [x.name.data, x.iban.data, x.bic.data, x.text.data] := by
      rw [hdata, splitCh_append _ _ _ hnS.2, splitCh_append _ _ _ hiS.2,
        splitCh_append _ _ _ hbS.2, splitCh_no_sep _ _ htS.2]
    have hspace : ¬ (' ' ∈ (unparseSepa x).data) := by
      rw [hdata]
      simp only [List.mem_append, List.mem_cons]
      push_neg
      exact ⟨hnS.1, by decide, hiS.1, by decide, hbS.1, by decide, htS.1⟩
    have hloop : psdLoop 4 0 [x.name, x.iban, x.bic, x.text] ("", "", "", "") =
        .ok (enable_spaces x.name, enable_spaces x.text, x.iban, x.bic) := by
      simp [psdLoop, hbN, hbI, hbOk, hbT, hnameNI, hiban, htextNI, hrnNE]
    unfold parse_sepa_data
    rw [if_neg hspace, hsplitU]
    simp only [List.map_cons, List.map_nil, mk_data, List.length_cons, List.length_nil]
    rw [if_neg (by norm_num)]
    simp only [hloop]
    rw [if_neg hibanNE, if_neg hbicNE, if_neg (fun hc => hrnNE hc.1)]

/-- Counterexample to C8 as stated: the recipient whose *name* is the
valid BIC string `DABADKKK` satisfies every hypothesis of the claim (valid
IBAN, valid BIC, non-empty name, no '/' or ' '), yet parsing its encoding
fails with "Did not find a recipient name" instead of returning the
recipient: the loop recognizes the name segment as a BIC. -/
theorem claim_C8_counterexample :
    (iban_validate "GB82WEST12345698765432" = some "GB82WEST12345698765432" ∧
     exceptOk (validate_swift_bic "DABADKKK") = some "DABADKKK" ∧
     ("DABADKKK" : String) ≠ "" ∧
     ' ' ∉ ("DABADKKK" : String).data ∧ '/' ∉ ("DABADKKK" : String).data) ∧
    unparseSepa ⟨"DABADKKK", "GB82WEST12345698765432", "DABADKKK", ""⟩ =
      "DABADKKK/GB82WEST12345698765432/DABADKKK" ∧
    parse_sepa_data "DABADKKK/GB82WEST12345698765432/DABADKKK" =
      .error (.valueError "Did not find a recipient name") := by
  refine ⟨⟨by decide, by decide, by decide, by decide, by decide⟩, by decide, by decide⟩

/-- Witness for the amended C8: the round trip on the test-suite recipient
`User+Name/GB82WEST12345698765432/DABADKKK/Foo+Bar`. -/
theorem claim_C8_amended_witness :
    (("User+Name" : String) ≠ "" ∧
     iban_validate "GB82WEST12345698765432" = some "GB82WEST12345698765432" ∧
     exceptOk (validate_swift_bic "DABADKKK") = some "DABADKKK" ∧
     bicVE (validate_swift_bic "GB82WEST12345698765432") = true ∧
     bicVE (validate_swift_bic "User+Name") = true ∧
     iban_validate "User+Name" = none ∧
     bicVE (validate_swift_bic "Foo+Bar") = true ∧
     iban_validate "Foo+Bar" = none) ∧
    parse_sepa_data
        (unparseSepa ⟨"User+Name", "GB82WEST12345698765432", "DABADKKK", "Foo+Bar"⟩) =
      .ok ⟨enable_spaces "User+Name", "GB82WEST12345698765432", "DABADKKK",
           enable_spaces "Foo+Bar"⟩ :=
  ⟨⟨by decide, by decide, by decide, by decide, by decide, by decide, by decide, by decide⟩,
   claim_C8_amended ⟨"User+Name", "GB82WEST12345698765432", "DABADKKK", "Foo+Bar"⟩
     (by decide) ⟨by decide, by decide⟩ ⟨by decide, by decide⟩ ⟨by decide, by decide⟩
     ⟨by decide, by decide⟩ (by decide) (by decide) (by decide) (by decide) (by decide)
     (by decide) (by decide)⟩

/-- C9 (the base64-first heuristic, `parse_sepa_destination` modelled from
the spec): the parser hands the base64 decode of the whole input to the
segment parser whenever decoding succeeds, and parses the raw string only
when decoding fails; consequently the raw (unencoded) address
`Usr+Name/GB82WEST12345698765432/DABADKKK`, which happens to be valid
base64 (length 40, all characters in the alphabet), is decoded and parsed
as gibberish instead of as the perfectly valid raw recipient it is. -/
theorem claim_C9 :
    (∀ s bs, b64decode s = some bs →
      parse_sepa_destination s = parse_sepa_data (bytesToStr bs)) ∧
    (∀ s, b64decode s = none → parse_sepa_destination s = parse_sepa_data s) ∧
    ((∃ bs, b64decode "Usr+Name/GB82WEST12345698765432/DABADKKK" = some bs) ∧
     (∃ d, parse_sepa_data "Usr+Name/GB82WEST12345698765432/DABADKKK" = .ok d) ∧
     parse_sepa_destination "Usr+Name/GB82WEST12345698765432/DABADKKK" ≠
       parse_sepa_data "Usr+Name/GB82WEST12345698765432/DABADKKK") := by
  refine ⟨?_, ?_, ⟨⟨_, rfl⟩, ⟨⟨"Usr Name", "GB82WEST12345698765432", "DABADKKK", ""⟩, by decide⟩, by decide⟩⟩
  · intro s bs h
    unfold parse_sepa_destination
    rw [h]
  · intro s h
    unfold parse_sepa_destination
    rw [h]

/-- Witness for C9: a string containing a space is not valid base64, so it
is parsed raw. -/
theorem claim_C9_witness :
    b64decode "not base64 at all" = none ∧
    parse_sepa_destination "not base64 at all" = parse_sepa_data "not base64 at all" :=
  ⟨by decide, claim_C9.2.1 "not base64 at all" (by decide)⟩


end SepaBridge
